import Mathlib

/-!
Shallow embedding of the annotation interaction engine of `src/src/App.tsx`
(a PDF markup viewer).  The React component state that the annotation engine
reads and writes is collected into one `AppState` record, and every event
handler of the source becomes a pure function `AppState → … → AppState`.

Conventions of the embedding:
* JavaScript numbers that hold normalized coordinates, thicknesses and sizes
  are modelled as exact rationals (`ℚ`); the pixel-space geometry kernel
  (`Math.hypot`, i.e. square roots) is modelled over `ℝ`.
* `Date.now()` is modelled by an explicit `now : ℤ` argument to every
  operation that mints an identifier.
* `canvasRef.current !== null` is the Boolean `canvasAttached`;
  `pdfDoc !== null` is the Boolean `pdfLoaded`; `canvasSize` is `Option`.
* A mouse event carries the client position together with the canvas
  bounding rectangle observed by `getBoundingClientRect` at that event.
* DOM-owned scroll offsets (the hand-tool pan) and the hover ids live
  outside the modelled state; handlers that only touch them are identities.
* The drag-mode strings "none" | "move" | "start" | "end" of the source
  become the constructors `none | move | start | stop` (`end` is reserved
  in Lean).
-/

namespace TraceMark


inductive LineStyle
  | solid
  | dashed
  | dotted
  | dotdash
  | wavy
deriving DecidableEq

inductive ToolMode
  | hand
  | select
  | line
  | area
  | text
deriving DecidableEq

inductive AreaShapeType
  | rect
  | circle
  | triangle
  | freeform
deriving DecidableEq

inductive TextFont
  | system
  | serif
  | mono
deriving DecidableEq

inductive OutlineStyle
  | solid
  | dashed
  | cloud
  | zigzag
deriving DecidableEq

/-- A normalized point `{x, y}` as stored in `AreaShape.points`. -/
structure Pt where
  x : ℚ
  y : ℚ
deriving DecidableEq

/-- The `Line` interface of the source. -/
structure Line where
  id : ℤ
  x1 : ℚ
  y1 : ℚ
  x2 : ℚ
  y2 : ℚ
  style : LineStyle
  thickness : ℚ
  arrowEnd : Bool
  color : String
deriving DecidableEq

/-- The `AreaShape` interface of the source. -/
structure AreaShape where
  id : ℤ
  type : AreaShapeType
  points : List Pt
  outlineStyle : OutlineStyle
  thickness : ℚ
  color : String
  fillOpacity : ℚ
deriving DecidableEq

/-- The `TextBox` interface of the source. -/
structure TextBox where
  id : ℤ
  x : ℚ
  y : ℚ
  width : ℚ
  height : ℚ
  text : String
  textColor : String
  fontSize : ℚ
  fontFamily : TextFont
  bold : Bool
  italic : Bool
  underline : Bool
  backgroundColor : String
  solidBackground : Bool
deriving DecidableEq

/-- The single-slot clipboard: `{type: "line"|"area"|"text", item}`. -/
inductive Clip
  | line (item : Line)
  | area (item : AreaShape)
  | text (item : TextBox)
deriving DecidableEq

/-- `dragModeRef` / `areaDragModeRef` values; `stop` models the source's
string `"end"` (`end` is a reserved word in Lean). -/
inductive DragMode
  | none
  | move
  | start
  | stop
deriving DecidableEq

/-- `textDragModeRef` values. -/
inductive TextDragMode
  | none
  | move
  | corner
deriving DecidableEq

/-- `dragStartRef` snapshot: mouse position plus the line geometry at
drag start. -/
structure LineSnap where
  mouseX : ℚ
  mouseY : ℚ
  x1 : ℚ
  y1 : ℚ
  x2 : ℚ
  y2 : ℚ
deriving DecidableEq

/-- `areaDragStartRef` snapshot. -/
structure AreaSnap where
  mouseX : ℚ
  mouseY : ℚ
  points : List Pt
deriving DecidableEq

/-- `textDragStartRef` snapshot. -/
structure TextSnap where
  mouseX : ℚ
  mouseY : ℚ
  x : ℚ
  y : ℚ
  width : ℚ
  height : ℚ
deriving DecidableEq

/-- A pointer event: client coordinates plus the canvas bounding rectangle
(`getBoundingClientRect()`) observed at the event. -/
structure MouseEv where
  clientX : ℚ
  clientY : ℚ
  rectLeft : ℚ
  rectTop : ℚ
  rectWidth : ℚ
  rectHeight : ℚ
deriving DecidableEq

/-- The component state of `App` restricted to the annotation engine:
all `useState` hooks and mutable refs that the annotation handlers read
or write. -/
structure AppState where
  pdfLoaded : Bool
  pageNum : ℤ
  scale : ℚ
  totalPages : Option ℤ
  canvasSize : Option Pt
  canvasAttached : Bool
  tool : ToolMode
  lines : List Line
  lineStyle : LineStyle
  lineWidth : ℚ
  arrowEnd : Bool
  isDrawingLine : Bool
  currentLineId : Option ℤ
  lineColor : String
  selectedLineId : Option ℤ
  areas : List AreaShape
  areaShapeType : AreaShapeType
  areaOutlineStyle : OutlineStyle
  areaThickness : ℚ
  areaFillOpacity : ℚ
  isDrawingArea : Bool
  currentAreaId : Option ℤ
  selectedAreaId : Option ℤ
  clipboard : Option Clip
  textBoxes : List TextBox
  selectedTextId : Option ℤ
  editingTextId : Option ℤ
  textColor : String
  textFont : TextFont
  textSize : ℚ
  textBold : Bool
  textItalic : Bool
  textUnderline : Bool
  textBgColor : String
  textBgSolid : Bool
  dragMode : DragMode
  dragLineId : Option ℤ
  dragStart : Option LineSnap
  areaDragMode : DragMode
  areaDragId : Option ℤ
  areaDragStart : Option AreaSnap
  textDragMode : TextDragMode
  textDragId : Option ℤ
  textDragStart : Option TextSnap
deriving DecidableEq

/-- The initial values of all the `useState` hooks and refs of `App`. -/
def initialState : AppState where
  pdfLoaded := false
  pageNum := 1
  scale := 1
  totalPages := Option.none
  canvasSize := Option.none
  canvasAttached := false
  tool := ToolMode.hand
  lines := []
  lineStyle := LineStyle.solid
  lineWidth := 2
  arrowEnd := false
  isDrawingLine := false
  currentLineId := Option.none
  lineColor := "#f97316"
  selectedLineId := Option.none
  areas := []
  areaShapeType := AreaShapeType.rect
  areaOutlineStyle := OutlineStyle.solid
  areaThickness := 2
  areaFillOpacity := 1/5
  isDrawingArea := false
  currentAreaId := Option.none
  selectedAreaId := Option.none
  clipboard := Option.none
  textBoxes := []
  selectedTextId := Option.none
  editingTextId := Option.none
  textColor := "#000000ff"
  textFont := TextFont.system
  textSize := 14
  textBold := false
  textItalic := false
  textUnderline := false
  textBgColor := "#facc15"
  textBgSolid := false
  dragMode := DragMode.none
  dragLineId := Option.none
  dragStart := Option.none
  areaDragMode := DragMode.none
  areaDragId := Option.none
  areaDragStart := Option.none
  textDragMode := TextDragMode.none
  textDragId := Option.none
  textDragStart := Option.none

/-- `clearSelection` of the source. -/
def clearSelection (s : AppState) : AppState :=
  { s with selectedLineId := Option.none, selectedAreaId := Option.none,
           selectedTextId := Option.none, editingTextId := Option.none }

/-- `deleteSelected` of the source. -/
def deleteSelected (s : AppState) : AppState :=
  match s.selectedLineId with
  | some i =>
      { s with lines := s.lines.filter (fun l => l.id != i),
               selectedLineId := Option.none }
  | Option.none =>
  match s.selectedAreaId with
  | some i =>
      { s with areas := s.areas.filter (fun a => a.id != i),
               selectedAreaId := Option.none }
  | Option.none =>
  match s.selectedTextId with
  | some i =>
      { s with textBoxes := s.textBoxes.filter (fun b => b.id != i),
               selectedTextId := Option.none, editingTextId := Option.none }
  | Option.none => s

/-- `duplicateSelected` of the source; `now` is the value of `Date.now()`
(the source reads it once per branch into `idBase`). -/
def duplicateSelected (s : AppState) (now : ℤ) : AppState :=
  match s.selectedLineId with
  | some i =>
      match s.lines.find? (fun l => l.id == i) with
      | Option.none => s
      | some line =>
          let clone : Line :=
            { line with id := now,
                        x1 := min 1 (line.x1 + 1/50), y1 := min 1 (line.y1 + 1/50),
                        x2 := min 1 (line.x2 + 1/50), y2 := min 1 (line.y2 + 1/50) }
          { s with lines := s.lines ++ [clone], selectedLineId := some now }
  | Option.none =>
  match s.selectedAreaId with
  | some i =>
      match s.areas.find? (fun a => a.id == i) with
      | Option.none => s
      | some area =>
          let clone : AreaShape :=
            { area with id := now,
                        points := area.points.map
                          (fun p => ⟨min 1 (p.x + 1/50), min 1 (p.y + 1/50)⟩) }
          { s with areas := s.areas ++ [clone], selectedAreaId := some now }
  | Option.none =>
  match s.selectedTextId with
  | some i =>
      match s.textBoxes.find? (fun b => b.id == i) with
      | Option.none => s
      | some box =>
          let clone : TextBox :=
            { box with id := now,
                       x := min 1 (box.x + 1/50), y := min 1 (box.y + 1/50) }
          { s with textBoxes := s.textBoxes ++ [clone], selectedTextId := some now }
  | Option.none => s

/-- `copySelection` of the source (object spreads are value copies here). -/
def copySelection (s : AppState) : AppState :=
  match s.selectedLineId with
  | some i =>
      match s.lines.find? (fun l => l.id == i) with
      | Option.none => s
      | some line => { s with clipboard := some (Clip.line line) }
  | Option.none =>
  match s.selectedAreaId with
  | some i =>
      match s.areas.find? (fun a => a.id == i) with
      | Option.none => s
      | some area => { s with clipboard := some (Clip.area area) }
  | Option.none =>
  match s.selectedTextId with
  | some i =>
      match s.textBoxes.find? (fun b => b.id == i) with
      | Option.none => s
      | some box => { s with clipboard := some (Clip.text box) }
  | Option.none => s

/-- `pasteClipboard` of the source; `now` is `Date.now()`.  Note the
clipboard slot itself is never written, and the three branches differ in
which selections they null (only the line branch clears `editingTextId`). -/
def pasteClipboard (s : AppState) (now : ℤ) : AppState :=
  match s.clipboard with
  | Option.none => s
  | some (Clip.line line) =>
      let clone : Line :=
        { line with id := now,
                    x1 := min 1 (line.x1 + 1/50), y1 := min 1 (line.y1 + 1/50),
                    x2 := min 1 (line.x2 + 1/50), y2 := min 1 (line.y2 + 1/50) }
      { s with lines := s.lines ++ [clone],
               selectedLineId := some now, selectedAreaId := Option.none,
               selectedTextId := Option.none, editingTextId := Option.none }
  | some (Clip.area area) =>
      let clone : AreaShape :=
        { area with id := now,
                    points := area.points.map
                      (fun p => ⟨min 1 (p.x + 1/50), min 1 (p.y + 1/50)⟩) }
      { s with areas := s.areas ++ [clone],
               selectedAreaId := some now, selectedLineId := Option.none,
               selectedTextId := Option.none }
  | some (Clip.text box) =>
      let clone : TextBox :=
        { box with id := now,
                   x := min 1 (box.x + 1/50), y := min 1 (box.y + 1/50) }
      { s with textBoxes := s.textBoxes ++ [clone],
               selectedTextId := some now, selectedLineId := Option.none,
               selectedAreaId := Option.none }

/-- The success continuation of `handleFileChange`: the PDF loaded with
`numPages` pages.  The source clears `lines`/`areas` and their selections
only; `textBoxes`, `selectedTextId` and `editingTextId` are not touched.
(The subsequent `renderPage` call is the external viewport adapter.) -/
def loadDocumentSuccess (s : AppState) (numPages : ℤ) : AppState :=
  { s with pdfLoaded := true, totalPages := some numPages,
           pageNum := 1, scale := 1,
           lines := [], areas := [],
           selectedLineId := Option.none, selectedAreaId := Option.none }

/-- `handleMouseDown` of the source; `now` is `Date.now()`.  The hand-tool
branch only touches DOM scroll state, hence is the identity here. -/
def handleMouseDown (s : AppState) (e : MouseEv) (now : ℤ) : AppState :=
  if s.tool = ToolMode.hand then s
  else if s.canvasAttached = false ∨ s.canvasSize = Option.none ∨ s.pdfLoaded = false then
    clearSelection s
  else
    let x := e.clientX - e.rectLeft
    let y := e.clientY - e.rectTop
    if x < 0 ∨ y < 0 ∨ x > e.rectWidth ∨ y > e.rectHeight then clearSelection s
    else
      let nx := x / e.rectWidth
      let ny := y / e.rectHeight
      if s.tool = ToolMode.line ∧ s.dragMode ≠ DragMode.none then s
      else if s.tool = ToolMode.area ∧ s.areaDragMode ≠ DragMode.none then s
      else if s.tool = ToolMode.text then
        let newBox : TextBox :=
          { id := now, x := nx, y := ny,
            width := 200 / e.rectWidth, height := 60 / e.rectHeight,
            text := "", textColor := s.textColor, fontSize := s.textSize,
            fontFamily := s.textFont, bold := s.textBold, italic := s.textItalic,
            underline := s.textUnderline, backgroundColor := s.textBgColor,
            solidBackground := s.textBgSolid }
        { s with textBoxes := s.textBoxes ++ [newBox],
                 selectedTextId := some now, selectedLineId := Option.none,
                 selectedAreaId := Option.none, editingTextId := Option.none }
      else if s.tool = ToolMode.line then
        let newLine : Line :=
          { id := now, x1 := nx, y1 := ny, x2 := nx, y2 := ny,
            style := s.lineStyle, thickness := s.lineWidth,
            arrowEnd := s.arrowEnd, color := s.lineColor }
        { s with lines := s.lines ++ [newLine],
                 isDrawingLine := true, currentLineId := some now,
                 selectedLineId := some now, selectedAreaId := Option.none,
                 selectedTextId := Option.none }
      else if s.tool = ToolMode.area then
        let initialPoints : List Pt :=
          if s.areaShapeType ≠ AreaShapeType.freeform then [⟨nx, ny⟩, ⟨nx, ny⟩]
          else [⟨nx, ny⟩]
        let newArea : AreaShape :=
          { id := now, type := s.areaShapeType, points := initialPoints,
            outlineStyle := s.areaOutlineStyle, thickness := s.areaThickness,
            color := s.lineColor, fillOpacity := s.areaFillOpacity }
        { s with areas := s.areas ++ [newArea],
                 isDrawingArea := true, currentAreaId := some now,
                 selectedAreaId := some now, selectedLineId := Option.none,
                 selectedTextId := Option.none }
      else s

/-- Guard of branch 1 of `handleMouseMove` (dragging an existing line):
yields the dragged id and the drag-start snapshot when active. -/
def lineDragGo (s : AppState) : Option (ℤ × LineSnap) :=
  if (s.tool = ToolMode.line ∨ s.tool = ToolMode.select) ∧ s.dragMode ≠ DragMode.none then
    match s.dragLineId, s.dragStart with
    | some did, some snap => some (did, snap)
    | _, _ => Option.none
  else Option.none

/-- Guard of branch 2 of `handleMouseMove` (dragging an existing area). -/
def areaDragGo (s : AppState) : Option (ℤ × AreaSnap) :=
  if (s.tool = ToolMode.area ∨ s.tool = ToolMode.select) ∧ s.areaDragMode ≠ DragMode.none then
    match s.areaDragId, s.areaDragStart with
    | some aid, some snap => some (aid, snap)
    | _, _ => Option.none
  else Option.none

/-- Guard of branch 3 of `handleMouseMove` (dragging a text box). -/
def textDragGo (s : AppState) : Option (ℤ × TextSnap) :=
  if (s.tool = ToolMode.text ∨ s.tool = ToolMode.select) ∧ s.textDragMode ≠ TextDragMode.none then
    match s.textDragId, s.textDragStart with
    | some tid, some snap => some (tid, snap)
    | _, _ => Option.none
  else Option.none

/-- Body of branch 1 of `handleMouseMove`: the pixel delta from the
drag-start mouse position is normalized by the current rectangle and added
to the snapshot geometry (never to the live value). -/
def lineDragApply (s : AppState) (e : MouseEv) (did : ℤ) (snap : LineSnap) : AppState :=
  let dxNorm := (e.clientX - snap.mouseX) / e.rectWidth
  let dyNorm := (e.clientY - snap.mouseY) / e.rectHeight
  { s with lines := s.lines.map (fun line =>
      if line.id != did then line
      else match s.dragMode with
        | DragMode.move =>
            { line with x1 := snap.x1 + dxNorm, y1 := snap.y1 + dyNorm,
                        x2 := snap.x2 + dxNorm, y2 := snap.y2 + dyNorm }
        | DragMode.start =>
            { line with x1 := snap.x1 + dxNorm, y1 := snap.y1 + dyNorm }
        | DragMode.stop =>
            { line with x2 := snap.x2 + dxNorm, y2 := snap.y2 + dyNorm }
        | DragMode.none => line) }

/-- Body of branch 2 of `handleMouseMove` (area move or corner resize). -/
def areaDragApply (s : AppState) (e : MouseEv) (aid : ℤ) (snap : AreaSnap) : AppState :=
  let dxNorm := (e.clientX - snap.mouseX) / e.rectWidth
  let dyNorm := (e.clientY - snap.mouseY) / e.rectHeight
  { s with areas := s.areas.map (fun area =>
      if area.id != aid then area
      else if s.areaDragMode = DragMode.move then
        { area with points := snap.points.map (fun p => ⟨p.x + dxNorm, p.y + dyNorm⟩) }
      else if area.type ≠ AreaShapeType.freeform ∧ snap.points.length ≥ 2 then
        match snap.points with
        | p1 :: p2 :: _ =>
            if s.areaDragMode = DragMode.start then
              { area with points := [⟨p1.x + dxNorm, p1.y + dyNorm⟩, p2] }
            else if s.areaDragMode = DragMode.stop then
              { area with points := [p1, ⟨p2.x + dxNorm, p2.y + dyNorm⟩] }
            else area
        | _ => area
      else area) }

/-- Body of branch 3 of `handleMouseMove` (text move or corner resize,
corner resize floored at the minimum normalized size 0.03). -/
def textDragApply (s : AppState) (e : MouseEv) (tid : ℤ) (snap : TextSnap) : AppState :=
  let dxNorm := (e.clientX - snap.mouseX) / e.rectWidth
  let dyNorm := (e.clientY - snap.mouseY) / e.rectHeight
  { s with textBoxes := s.textBoxes.map (fun box =>
      if box.id != tid then box
      else if s.textDragMode = TextDragMode.move then
        { box with x := snap.x + dxNorm, y := snap.y + dyNorm }
      else if s.textDragMode = TextDragMode.corner then
        { box with width := max (3/100) (snap.width + dxNorm),
                   height := max (3/100) (snap.height + dyNorm) }
      else box) }

/-- `handleMouseMove` of the source.  The hand-tool branch pans the DOM
scroll container only.  Note the drawing branches clamp the normalized
pointer position into `[0,1]` while the drag branches do not clamp. -/
def handleMouseMove (s : AppState) (e : MouseEv) : AppState :=
  if s.tool = ToolMode.hand then s
  else if s.canvasAttached = false ∨ s.canvasSize = Option.none then s
  else match lineDragGo s with
  | some (did, snap) => lineDragApply s e did snap
  | Option.none =>
  match areaDragGo s with
  | some (aid, snap) => areaDragApply s e aid snap
  | Option.none =>
  match textDragGo s with
  | some (tid, snap) => textDragApply s e tid snap
  | Option.none =>
    let nx := min 1 (max 0 ((e.clientX - e.rectLeft) / e.rectWidth))
    let ny := min 1 (max 0 ((e.clientY - e.rectTop) / e.rectHeight))
    if s.tool = ToolMode.line ∧ s.isDrawingLine then
      match s.currentLineId with
      | some cid =>
          { s with lines := s.lines.map (fun line =>
              if line.id == cid then { line with x2 := nx, y2 := ny } else line) }
      | Option.none => s
    else if s.tool = ToolMode.area ∧ s.isDrawingArea then
      match s.currentAreaId with
      | some cid =>
          { s with areas := s.areas.map (fun area =>
              if area.id != cid then area
              else if area.type = AreaShapeType.freeform then
                { area with points := area.points ++ [⟨nx, ny⟩] }
              else match area.points with
                | p0 :: _ => { area with points := [p0, ⟨nx, ny⟩] }
                | [] => area) }
      | Option.none => s
    else s

/-- Which line handle a `startHandleDrag` grabs ("start" or "end"). -/
inductive HandleSide
  | start
  | stop
deriving DecidableEq

/-- `startLineMove` of the source: body hit on a line.  It selects the line,
nulls the area selection (but not the text selection), mirrors the line's
style into the defaults and arms the move drag with a geometry snapshot. -/
def startLineMove (s : AppState) (e : MouseEv) (lineId : ℤ) : AppState :=
  if ¬(s.tool = ToolMode.line ∨ s.tool = ToolMode.select) ∨ s.canvasAttached = false then s
  else match s.lines.find? (fun l => l.id == lineId) with
  | Option.none => s
  | some line =>
      { s with selectedLineId := some lineId, selectedAreaId := Option.none,
               lineStyle := line.style, lineWidth := line.thickness,
               arrowEnd := line.arrowEnd, lineColor := line.color,
               dragMode := DragMode.move, dragLineId := some lineId,
               dragStart := some ⟨e.clientX, e.clientY, line.x1, line.y1, line.x2, line.y2⟩ }

/-- `startHandleDrag` of the source: endpoint-handle hit on a line. -/
def startHandleDrag (s : AppState) (e : MouseEv) (lineId : ℤ) (endpoint : HandleSide) :
    AppState :=
  if ¬(s.tool = ToolMode.line ∨ s.tool = ToolMode.select) ∨ s.canvasAttached = false then s
  else match s.lines.find? (fun l => l.id == lineId) with
  | Option.none => s
  | some line =>
      { s with selectedLineId := some lineId, selectedAreaId := Option.none,
               lineStyle := line.style, lineWidth := line.thickness,
               arrowEnd := line.arrowEnd, lineColor := line.color,
               dragMode := if endpoint = HandleSide.start then DragMode.start else DragMode.stop,
               dragLineId := some lineId,
               dragStart := some ⟨e.clientX, e.clientY, line.x1, line.y1, line.x2, line.y2⟩ }

/-- `startAreaMove` of the source: body hit on an area shape. -/
def startAreaMove (s : AppState) (e : MouseEv) (areaId : ℤ) : AppState :=
  if ¬(s.tool = ToolMode.area ∨ s.tool = ToolMode.select) ∨ s.canvasAttached = false then s
  else match s.areas.find? (fun a => a.id == areaId) with
  | Option.none => s
  | some area =>
      { s with selectedAreaId := some areaId, selectedLineId := Option.none,
               areaOutlineStyle := area.outlineStyle, areaThickness := area.thickness,
               areaFillOpacity := area.fillOpacity, lineColor := area.color,
               areaDragMode := DragMode.move, areaDragId := some areaId,
               areaDragStart := some ⟨e.clientX, e.clientY, area.points⟩ }

/-- `startAreaHandleDrag` of the source: corner-handle hit on a
non-freeform area. -/
def startAreaHandleDrag (s : AppState) (e : MouseEv) (areaId : ℤ) (endpoint : HandleSide) :
    AppState :=
  if ¬(s.tool = ToolMode.area ∨ s.tool = ToolMode.select) ∨ s.canvasAttached = false then s
  else match s.areas.find? (fun a => a.id == areaId) with
  | Option.none => s
  | some area =>
      if area.type = AreaShapeType.freeform ∨ area.points.length < 2 then s
      else
        { s with selectedAreaId := some areaId, selectedLineId := Option.none,
                 areaOutlineStyle := area.outlineStyle, areaThickness := area.thickness,
                 areaFillOpacity := area.fillOpacity, lineColor := area.color,
                 areaDragMode := if endpoint = HandleSide.start then DragMode.start else DragMode.stop,
                 areaDragId := some areaId,
                 areaDragStart := some ⟨e.clientX, e.clientY, area.points⟩ }

/-- The inline `onMouseDown` handler of a rendered text box (the `box`
argument is the element of `textBoxes` the handler was rendered for).
It selects the box, nulls both other selections, exits edit mode,
mirrors the box's style into the defaults and arms the move drag. -/
def textBoxPointerDown (s : AppState) (e : MouseEv) (box : TextBox) : AppState :=
  if ¬(s.tool = ToolMode.text ∨ s.tool = ToolMode.select) then s
  else
    { s with selectedTextId := some box.id, selectedLineId := Option.none,
             selectedAreaId := Option.none, editingTextId := Option.none,
             textColor := box.textColor, textSize := box.fontSize,
             textFont := box.fontFamily, textBold := box.bold,
             textItalic := box.italic, textUnderline := box.underline,
             textBgColor := box.backgroundColor, textBgSolid := box.solidBackground,
             textDragMode := TextDragMode.move, textDragId := some box.id,
             textDragStart := some ⟨e.clientX, e.clientY, box.x, box.y, box.width, box.height⟩ }

/-- The inline `onMouseDown` handler of a text box's resize corner. -/
def textBoxCornerDown (s : AppState) (e : MouseEv) (box : TextBox) : AppState :=
  if ¬(s.tool = ToolMode.text ∨ s.tool = ToolMode.select) then s
  else
    { s with selectedTextId := some box.id, selectedLineId := Option.none,
             selectedAreaId := Option.none, editingTextId := Option.none,
             textDragMode := TextDragMode.corner, textDragId := some box.id,
             textDragStart := some ⟨e.clientX, e.clientY, box.x, box.y, box.width, box.height⟩ }

/-! ### Geometry kernel (pixel space, over `ℝ`) -/

/-- `Math.hypot(dx, dy)`. -/
noncomputable def hypot (dx dy : ℝ) : ℝ :=
  Real.sqrt (dx ^ 2 + dy ^ 2)

/-- `const length = Math.hypot(dx, dy) || 1;` of `makeWavyPath`
(`hypot` is never negative, so falsy means exactly zero). -/
noncomputable def wavyLength (x1 y1 x2 y2 : ℝ) : ℝ :=
  let h := hypot (x2 - x1) (y2 - y1)
  if h = 0 then 1 else h

/-- `const segments = Math.max(2, Math.round(length / wavelength));` of
`makeWavyPath`.  JavaScript `Math.round` rounds half-up, which is
Mathlib's `round` (`round x = ⌊x + 1/2⌋`). -/
noncomputable def wavySegs (x1 y1 x2 y2 wavelength : ℝ) : ℕ :=
  max 2 (round (wavyLength x1 y1 x2 y2 / wavelength)).toNat

/-- `const sign = i % 2 === 0 ? -1 : 1;` of `makeWavyPath`. -/
def wavySign (i : ℕ) : ℝ :=
  if i % 2 = 0 then -1 else 1

/-- One quadratic curve command `Q cx cy px py` of an SVG path. -/
structure QuadSeg where
  cx : ℝ
  cy : ℝ
  px : ℝ
  py : ℝ

/-- The `i`-th quadratic segment emitted by the loop of `makeWavyPath`
(`i` runs from 1 to `segments` in the source). -/
noncomputable def wavySeg (x1 y1 x2 y2 amplitude wavelength : ℝ) (i : ℕ) : QuadSeg :=
  let dx := x2 - x1
  let dy := y2 - y1
  let length := wavyLength x1 y1 x2 y2
  let segments : ℝ := (wavySegs x1 y1 x2 y2 wavelength : ℝ)
  let stepX := dx / segments
  let stepY := dy / segments
  let nx := -dy / length
  let ny := dx / length
  let px := x1 + stepX * (i : ℝ)
  let py := y1 + stepY * (i : ℝ)
  let offset := wavySign i * amplitude
  ⟨px + nx * offset, py + ny * offset, px, py⟩

/-- `makeWavyPath` of the source, as the list of quadratic segments the
emitted path string `M x1 y1 (Q cx cy px py)*` consists of (the defaults
of the source are `amplitude = 4`, `wavelength = 12`). -/
noncomputable def makeWavyPath (x1 y1 x2 y2 amplitude wavelength : ℝ) : List QuadSeg :=
  (List.range (wavySegs x1 y1 x2 y2 wavelength)).map
    (fun k => wavySeg x1 y1 x2 y2 amplitude wavelength (k + 1))

/-- An SVG `<rect>`'s geometry attributes. -/
structure RectBox where
  x : ℝ
  y : ℝ
  w : ℝ
  h : ℝ

/-- The rectangle-area rendering of `App`: from the two defining corners
(already projected to pixel space) it computes
`rx = min x1 x2, ry = min y1 y2, rw = |x2 - x1|, rh = |y2 - y1|`. -/
noncomputable def rectRender (x1 y1 x2 y2 : ℝ) : RectBox :=
  ⟨min x1 x2, min y1 y2, |x2 - x1|, |y2 - y1|⟩

/-- An SVG `<circle>`'s geometry attributes. -/
structure CircleGeom where
  cx : ℝ
  cy : ℝ
  r : ℝ

/-- The circle-area rendering of `App`: center is the midpoint of the two
defining points, radius is `Math.hypot(x2 - x1, y2 - y1) / 2`. -/
noncomputable def circleRender (x1 y1 x2 y2 : ℝ) : CircleGeom :=
  ⟨(x1 + x2) / 2, (y1 + y2) / 2, hypot (x2 - x1) (y2 - y1) / 2⟩

/-! ### Concrete fixtures and claim theorems -/

/-- C1 fixture: an existing line with id 1. -/
def c1Line : Line :=
  ⟨1, 1/4, 1/4, 1/2, 1/2, LineStyle.solid, 2, false, "#f97316"⟩

/-- C1 fixture: an existing text box with id 5. -/
def c1Box : TextBox :=
  ⟨5, 1/10, 1/10, 1/4, 1/10, "note", "#000000ff", 14, TextFont.system,
   false, false, false, "#facc15", false⟩

/-- C1 fixture: select tool active, canvas attached, text box 5 selected
(reached by a text-box pointer-down followed by a tool switch). -/
def c1State : AppState :=
  { initialState with tool := ToolMode.select, canvasAttached := true,
                      pdfLoaded := true, canvasSize := some ⟨800, 600⟩,
                      lines := [c1Line], textBoxes := [c1Box],
                      selectedTextId := some 5 }

/-- C1 fixture: the pointer event grabbing line 1. -/
def c1Ev : MouseEv := ⟨100, 100, 0, 0, 800, 600⟩

/-- C2 fixture: a line with id 2 present before the document load. -/
def c2Line : Line :=
  ⟨2, 1/4, 1/4, 1/2, 1/2, LineStyle.solid, 2, false, "#f97316"⟩

/-- C2 fixture: an area with id 3 present before the document load. -/
def c2Area : AreaShape :=
  ⟨3, AreaShapeType.rect, [⟨1/5, 1/5⟩, ⟨3/5, 1/2⟩], OutlineStyle.solid, 2,
   "#f97316", 1/5⟩

/-- C2 fixture: a text box with id 7 present and selected before the load. -/
def c2Box : TextBox :=
  ⟨7, 1/10, 1/10, 1/4, 1/10, "note", "#000000ff", 14, TextFont.system,
   false, false, false, "#facc15", false⟩

/-- C2 fixture: a state with one entity of each kind, text box 7 selected. -/
def c2State : AppState :=
  { initialState with pdfLoaded := true, canvasAttached := true,
                      lines := [c2Line], areas := [c2Area],
                      textBoxes := [c2Box], selectedTextId := some 7 }

/-- C3 fixture: the clipboard holds a line whose id is the timestamp 1000. -/
def c3Line : Line :=
  ⟨1000, 1/10, 1/10, 1/5, 1/5, LineStyle.solid, 2, false, "#f97316"⟩

/-- C3 fixture: a fresh state whose clipboard holds `c3Line`. -/
def c3State : AppState :=
  { initialState with clipboard := some (Clip.line c3Line) }

/-- C4 fixture: line tool armed over a loaded 800×600 canvas. -/
def c4State : AppState :=
  { initialState with tool := ToolMode.line, pdfLoaded := true,
                      canvasAttached := true, canvasSize := some ⟨800, 600⟩ }

/-- C4 fixture: a pointer-down at the canvas center. -/
def c4Ev : MouseEv := ⟨400, 300, 0, 0, 800, 600⟩

/-- C6 fixture: a degenerate line sitting at the canvas center. -/
def c6Line : Line :=
  ⟨1, 1/2, 1/2, 1/2, 1/2, LineStyle.solid, 2, false, "#f97316"⟩

/-- C6 fixture: a move drag of line 1 armed with its snapshot (as
`startLineMove` leaves it, mouse grabbed at client (0,0)). -/
def c6State : AppState :=
  { initialState with tool := ToolMode.select, canvasAttached := true,
                      pdfLoaded := true, canvasSize := some ⟨800, 600⟩,
                      lines := [c6Line], selectedLineId := some 1,
                      dragMode := DragMode.move, dragLineId := some 1,
                      dragStart := some ⟨0, 0, 1/2, 1/2, 1/2, 1/2⟩ }

/-- C6 fixture: the pointer moved a full canvas width to the right. -/
def c6Ev : MouseEv := ⟨800, 0, 0, 0, 800, 600⟩

/-- C7 fixture: an existing line with id 1. -/
def c7Line : Line :=
  ⟨1, 1/4, 1/4, 1/2, 1/2, LineStyle.solid, 2, false, "#f97316"⟩

/-- C7 fixture: an existing text box with id 5. -/
def c7Box : TextBox :=
  ⟨5, 1/10, 1/10, 1/4, 1/10, "note", "#000000ff", 14, TextFont.system,
   false, false, false, "#facc15", false⟩

/-- C7 fixture: line 1 selected while text box 5 is also still selected
(reachable, since `startLineMove` does not clear the text selection). -/
def c7State : AppState :=
  { initialState with tool := ToolMode.select, canvasAttached := true,
                      lines := [c7Line], selectedLineId := some 1,
                      textBoxes := [c7Box], selectedTextId := some 5 }

/-- The line clone built by `pasteClipboard`/`duplicateSelected`: fresh id,
offset 0.02 on every coordinate, clamped by `Math.min(1, ·)`. -/
def lineClone (l : Line) (now : ℤ) : Line :=
  { l with id := now,
           x1 := min 1 (l.x1 + 1/50), y1 := min 1 (l.y1 + 1/50),
           x2 := min 1 (l.x2 + 1/50), y2 := min 1 (l.y2 + 1/50) }

/-- The area clone built by `pasteClipboard`/`duplicateSelected`. -/
def areaClone (a : AreaShape) (now : ℤ) : AreaShape :=
  { a with id := now,
           points := a.points.map (fun p => ⟨min 1 (p.x + 1/50), min 1 (p.y + 1/50)⟩) }

/-- The text-box clone built by `pasteClipboard`/`duplicateSelected`. -/
def textClone (b : TextBox) (now : ℤ) : TextBox :=
  { b with id := now, x := min 1 (b.x + 1/50), y := min 1 (b.y + 1/50) }

/-- C7 fixture for the witness: only line 1 is selected, and it exists. -/
def c7StateB : AppState :=
  { initialState with tool := ToolMode.select, canvasAttached := true,
                      lines := [c7Line], selectedLineId := some 1 }

/-- C10 fixture: a clipboard line whose x1 = 0.995 also exercises the clamp. -/
def c10Line : Line :=
  ⟨42, 199/200, 9/10, 1/2, 1/2, LineStyle.dashed, 3, true, "#f97316"⟩

/-- C10 fixture: a state whose clipboard holds `c10Line`. -/
def c10State : AppState :=
  { initialState with clipboard := some (Clip.line c10Line) }

/-- C5 fixture: the line being dragged. -/
def c5Line : Line :=
  ⟨1, 1/4, 1/4, 1/2, 1/2, LineStyle.solid, 2, false, "#f97316"⟩

/-- C5 fixture: the drag-start snapshot of `c5Line`, grabbed at client
(0,0). -/
def c5Snap : LineSnap := ⟨0, 0, 1/4, 1/4, 1/2, 1/2⟩

/-- C5 fixture: an armed move drag of line 1 under the select tool. -/
def c5State : AppState :=
  { initialState with tool := ToolMode.select, canvasAttached := true,
                      pdfLoaded := true, canvasSize := some ⟨800, 600⟩,
                      lines := [c5Line], selectedLineId := some 1,
                      dragMode := DragMode.move, dragLineId := some 1,
                      dragStart := some c5Snap }

/-- C5 fixture: an intermediate pointer position. -/
def c5Ev1 : MouseEv := ⟨40, 30, 0, 0, 800, 600⟩

/-- C5 fixture: the final pointer position. -/
def c5Ev2 : MouseEv := ⟨80, 60, 0, 0, 800, 600⟩

/-- C6 fixture for the witness: line tool armed over a loaded 800×600
canvas. -/
def c6StateB : AppState :=
  { initialState with tool := ToolMode.line, pdfLoaded := true,
                      canvasAttached := true, canvasSize := some ⟨800, 600⟩ }

/-- C6 fixture for the witness: a pointer-down at the canvas center. -/
def c6EvB : MouseEv := ⟨400, 300, 0, 0, 800, 600⟩

/-! ### Theorems -/

/-- C1: the claim "after a selection-starting operation at most one entity
id is selected across the three collections" is false: `startLineMove` on
line 1 while text box 5 is selected selects the line but leaves the text
selection in place, so two ids are selected at once. -/
theorem c1_counterexample :
    (startLineMove c1State c1Ev 1).selectedLineId = some 1 ∧
    (startLineMove c1State c1Ev 1).selectedTextId = some 5 := by
  norm_num +decide [startLineMove, c1State, c1Line, c1Box, c1Ev, initialState]

/-- C1 (amended): the selection side effect of the drag-starting
operations is only pairwise between lines and areas: `startLineMove` and
`startHandleDrag` select the line and null the area selection but leave
the text selection unchanged; `startAreaMove` and `startAreaHandleDrag`
select the area and null the line selection but leave the text selection
unchanged; only the text-box pointer-down nulls both other selections.
So after these operations at most one of line/area is selected, while a
pre-existing text selection may persist alongside. -/
theorem c1_amended :
    (∀ (s : AppState) (e : MouseEv) (lid : ℤ) (l : Line),
       (s.tool = ToolMode.line ∨ s.tool = ToolMode.select) →
       s.canvasAttached = true →
       s.lines.find? (fun x => x.id == lid) = some l →
       (startLineMove s e lid).selectedLineId = some lid ∧
       (startLineMove s e lid).selectedAreaId = Option.none ∧
       (startLineMove s e lid).selectedTextId = s.selectedTextId) ∧
    (∀ (s : AppState) (e : MouseEv) (lid : ℤ) (l : Line) (ep : HandleSide),
       (s.tool = ToolMode.line ∨ s.tool = ToolMode.select) →
       s.canvasAttached = true →
       s.lines.find? (fun x => x.id == lid) = some l →
       (startHandleDrag s e lid ep).selectedLineId = some lid ∧
       (startHandleDrag s e lid ep).selectedAreaId = Option.none ∧
       (startHandleDrag s e lid ep).selectedTextId = s.selectedTextId) ∧
    (∀ (s : AppState) (e : MouseEv) (aid : ℤ) (a : AreaShape),
       (s.tool = ToolMode.area ∨ s.tool = ToolMode.select) →
       s.canvasAttached = true →
       s.areas.find? (fun x => x.id == aid) = some a →
       (startAreaMove s e aid).selectedAreaId = some aid ∧
       (startAreaMove s e aid).selectedLineId = Option.none ∧
       (startAreaMove s e aid).selectedTextId = s.selectedTextId) ∧
    (∀ (s : AppState) (e : MouseEv) (aid : ℤ) (a : AreaShape) (ep : HandleSide),
       (s.tool = ToolMode.area ∨ s.tool = ToolMode.select) →
       s.canvasAttached = true →
       s.areas.find? (fun x => x.id == aid) = some a →
       ¬(a.type = AreaShapeType.freeform ∨ a.points.length < 2) →
       (startAreaHandleDrag s e aid ep).selectedAreaId = some aid ∧
       (startAreaHandleDrag s e aid ep).selectedLineId = Option.none ∧
       (startAreaHandleDrag s e aid ep).selectedTextId = s.selectedTextId) ∧
    (∀ (s : AppState) (e : MouseEv) (box : TextBox),
       (s.tool = ToolMode.text ∨ s.tool = ToolMode.select) →
       (textBoxPointerDown s e box).selectedTextId = some box.id ∧
       (textBoxPointerDown s e box).selectedLineId = Option.none ∧
       (textBoxPointerDown s e box).selectedAreaId = Option.none) := by
  refine ⟨?_, ?_, ?_, ?_, ?_⟩
  · intro s e lid l ht hca hf
    simp [startLineMove, ht, hca, hf]
  · intro s e lid l ep ht hca hf
    simp [startHandleDrag, ht, hca, hf]
  · intro s e aid a ht hca hf
    simp [startAreaMove, ht, hca, hf]
  · intro s e aid a ep ht hca hf hnf
    simp [startAreaHandleDrag, ht, hca, hf, hnf]
  · intro s e box ht
    simp [textBoxPointerDown, ht]

/-- C1 witness: the `startLineMove` conjunct of `c1_amended` on the
concrete state `c1State` (text box 5 selected, grabbing line 1). -/
theorem c1_witness :
    (startLineMove c1State c1Ev 1).selectedLineId = some 1 ∧
    (startLineMove c1State c1Ev 1).selectedAreaId = Option.none ∧
    (startLineMove c1State c1Ev 1).selectedTextId = c1State.selectedTextId :=
  c1_amended.1 c1State c1Ev 1 c1Line (Or.inr rfl) rfl rfl

/-- C2: after a successful document load the source clears lines and areas
and their selections, but the text-box collection and the text selection
survive untouched — contradicting both the claim and the source's own
"Clear annotations when a new PDF is loaded" comment. -/
theorem c2_theorem :
    (loadDocumentSuccess c2State 3).lines = [] ∧
    (loadDocumentSuccess c2State 3).areas = [] ∧
    (loadDocumentSuccess c2State 3).selectedLineId = Option.none ∧
    (loadDocumentSuccess c2State 3).selectedAreaId = Option.none ∧
    (loadDocumentSuccess c2State 3).textBoxes = [c2Box] ∧
    (loadDocumentSuccess c2State 3).selectedTextId = some 7 := by
  norm_num +decide [loadDocumentSuccess, c2State, initialState]

/-- C3: "paste mints a new id distinct from the copied entity's id" is
false: pasting in the same millisecond as the copied entity's mint
(`Date.now() = 1000 = c3Line.id`) produces a clone with the same id 1000. -/
theorem c3_counterexample :
    c3State.clipboard = some (Clip.line c3Line) ∧ c3Line.id = 1000 ∧
    ((pasteClipboard c3State 1000).lines.map Line.id) = [1000] := by
  norm_num +decide [pasteClipboard, c3State, c3Line, initialState]

/-- C4: ids are minted from `Date.now()`, so two creations in the same
millisecond collide: creating a line at timestamp 1000 and duplicating it
at timestamp 1000 yields two entities that both carry id 1000 — ids are
neither pairwise distinct nor strictly increasing in creation order. -/
theorem c4_theorem :
    ((duplicateSelected (handleMouseDown c4State c4Ev 1000) 1000).lines.map Line.id)
      = [1000, 1000] := by
  norm_num +decide [duplicateSelected, handleMouseDown, clearSelection, c4State, c4Ev, initialState]

/-- C6: the claim "every positional field stays in [0,1] in every reachable
state" is false: a move drag adds the unclamped normalized delta, so
dragging the pointer a full canvas width right puts the line's `x1`
at 3/2 > 1. -/
theorem c6_counterexample :
    ((handleMouseMove c6State c6Ev).lines.map Line.x1) = [3/2] ∧
    ¬((3/2 : ℚ) ≤ 1) := by
  norm_num +decide [handleMouseMove, lineDragGo, areaDragGo, textDragGo, lineDragApply,
            c6State, c6Line, c6Ev, initialState]

/-- C7: "duplicate = copy + paste up to the clipboard slot" is false as
stated: on a state where a line and a text box are simultaneously selected
the two routes produce the same collections but different selections
(paste nulls the text selection, duplicate leaves it). -/
theorem c7_counterexample :
    (duplicateSelected c7State 2000).selectedTextId = some 5 ∧
    (pasteClipboard (copySelection c7State) 2000).selectedTextId = Option.none ∧
    (duplicateSelected c7State 2000).lines
      = (pasteClipboard (copySelection c7State) 2000).lines := by
  norm_num +decide [duplicateSelected, copySelection, pasteClipboard, c7State, c7Line, c7Box, initialState]

/-- C3 (amended): paste mints the current timestamp as the id (hence the id
is distinct from the copied entity's id exactly when the paste happens at a
different millisecond), applies offset 0.02 clamped at 1 to every
positional field, appends the clone to the matching collection and selects
it; pasting the clipboard line (0.1,0.1)-(0.2,0.2) at a fresh timestamp
yields endpoints (0.12,0.12)-(0.22,0.22) and a distinct id. -/
theorem c3_amended :
    (∀ (s : AppState) (now : ℤ) (l : Line), s.clipboard = some (Clip.line l) →
       pasteClipboard s now =
         { s with lines := s.lines ++ [lineClone l now],
                  selectedLineId := some now, selectedAreaId := Option.none,
                  selectedTextId := Option.none, editingTextId := Option.none } ∧
       (lineClone l now).id = now ∧
       (lineClone l now).x1 ≤ 1 ∧ (lineClone l now).y1 ≤ 1 ∧
       (lineClone l now).x2 ≤ 1 ∧ (lineClone l now).y2 ≤ 1) ∧
    (∀ (s : AppState) (now : ℤ) (a : AreaShape), s.clipboard = some (Clip.area a) →
       pasteClipboard s now =
         { s with areas := s.areas ++ [areaClone a now],
                  selectedAreaId := some now, selectedLineId := Option.none,
                  selectedTextId := Option.none } ∧
       (areaClone a now).id = now ∧
       ∀ p ∈ (areaClone a now).points, p.x ≤ 1 ∧ p.y ≤ 1) ∧
    (∀ (s : AppState) (now : ℤ) (b : TextBox), s.clipboard = some (Clip.text b) →
       pasteClipboard s now =
         { s with textBoxes := s.textBoxes ++ [textClone b now],
                  selectedTextId := some now, selectedLineId := Option.none,
                  selectedAreaId := Option.none } ∧
       (textClone b now).id = now ∧
       (textClone b now).x ≤ 1 ∧ (textClone b now).y ≤ 1) ∧
    ((pasteClipboard c3State 2000).lines =
       [{ c3Line with id := 2000, x1 := 3/25, y1 := 3/25, x2 := 11/50, y2 := 11/50 }] ∧
     (pasteClipboard c3State 2000).selectedLineId = some 2000 ∧
     (2000 : ℤ) ≠ c3Line.id) := by
  refine ⟨?_, ?_, ?_, ?_⟩
  · intro s now l h
    refine ⟨by simp [pasteClipboard, h, lineClone], rfl,
            min_le_left _ _, min_le_left _ _, min_le_left _ _, min_le_left _ _⟩
  · intro s now a h
    refine ⟨by simp [pasteClipboard, h, areaClone], rfl, ?_⟩
    intro p hp
    simp only [areaClone, List.mem_map] at hp
    obtain ⟨q, _, rfl⟩ := hp
    exact ⟨min_le_left _ _, min_le_left _ _⟩
  · intro s now b h
    exact ⟨by simp [pasteClipboard, h, textClone], rfl, min_le_left _ _, min_le_left _ _⟩
  · refine ⟨?_, ?_, by norm_num +decide [c3Line]⟩
    · norm_num +decide [pasteClipboard, c3State, c3Line, initialState]
    · norm_num +decide [pasteClipboard, c3State, c3Line, initialState]

/-- C3 witness: the line conjunct of `c3_amended` evaluated on the concrete
clipboard state `c3State` at timestamp 2000. -/
theorem c3_witness :
    pasteClipboard c3State 2000 =
      { c3State with lines := c3State.lines ++ [lineClone c3Line 2000],
                     selectedLineId := some 2000, selectedAreaId := Option.none,
                     selectedTextId := Option.none, editingTextId := Option.none } :=
  (c3_amended.1 c3State 2000 c3Line rfl).1

/-- C7 (amended): when exactly one entity is selected, it is present in its
collection, and text-edit mode is off, `duplicateSelected` produces exactly
the state of `copySelection` followed by `pasteClipboard` (same timestamp,
hence same minted id) with the clipboard slot restored to its old value. -/
theorem c7_amended :
    (∀ (s : AppState) (now : ℤ) (i : ℤ) (l : Line),
       s.selectedLineId = some i →
       s.lines.find? (fun x => x.id == i) = some l →
       s.selectedAreaId = Option.none → s.selectedTextId = Option.none →
       s.editingTextId = Option.none →
       duplicateSelected s now =
         { pasteClipboard (copySelection s) now with clipboard := s.clipboard }) ∧
    (∀ (s : AppState) (now : ℤ) (i : ℤ) (a : AreaShape),
       s.selectedLineId = Option.none → s.selectedAreaId = some i →
       s.areas.find? (fun x => x.id == i) = some a →
       s.selectedTextId = Option.none →
       duplicateSelected s now =
         { pasteClipboard (copySelection s) now with clipboard := s.clipboard }) ∧
    (∀ (s : AppState) (now : ℤ) (i : ℤ) (b : TextBox),
       s.selectedLineId = Option.none → s.selectedAreaId = Option.none →
       s.selectedTextId = some i →
       s.textBoxes.find? (fun x => x.id == i) = some b →
       duplicateSelected s now =
         { pasteClipboard (copySelection s) now with clipboard := s.clipboard }) := by
  refine ⟨?_, ?_, ?_⟩
  · intro s now i l h1 h2 h3 h4 h5
    cases s
    simp only at h1 h2 h3 h4 h5
    subst h1 h3 h4 h5
    simp [duplicateSelected, copySelection, pasteClipboard, h2]
  · intro s now i a h1 h2 h3 h4
    cases s
    simp only at h1 h2 h3 h4
    subst h1 h2 h4
    simp [duplicateSelected, copySelection, pasteClipboard, h3]
  · intro s now i b h1 h2 h3 h4
    cases s
    simp only at h1 h2 h3 h4
    subst h1 h2 h3
    simp [duplicateSelected, copySelection, pasteClipboard, h4]

/-- C7 witness: the line conjunct of `c7_amended` on the concrete state
`c7StateB` at timestamp 2000. -/
theorem c7_witness :
    duplicateSelected c7StateB 2000 =
      { pasteClipboard (copySelection c7StateB) 2000 with clipboard := c7StateB.clipboard } :=
  c7_amended.1 c7StateB 2000 1 c7Line rfl (by simp +decide [c7StateB, c7Line, initialState]) rfl rfl rfl

/-- C10: `pasteClipboard` never writes the clipboard slot, so paste can be
repeated, and two consecutive pastes append two clones with identical
geometry (each is the clipboard snapshot offset once by 0.02 and clamped
at 1), differing at most in their minted id. -/
theorem c10_theorem :
    (∀ (s : AppState) (t1 t2 : ℤ) (l : Line), s.clipboard = some (Clip.line l) →
       (pasteClipboard s t1).clipboard = s.clipboard ∧
       (pasteClipboard (pasteClipboard s t1) t2).lines =
         s.lines ++ [lineClone l t1, lineClone l t2] ∧
       lineClone l t1 = { lineClone l t2 with id := t1 }) ∧
    (∀ (s : AppState) (t1 t2 : ℤ) (a : AreaShape), s.clipboard = some (Clip.area a) →
       (pasteClipboard s t1).clipboard = s.clipboard ∧
       (pasteClipboard (pasteClipboard s t1) t2).areas =
         s.areas ++ [areaClone a t1, areaClone a t2] ∧
       areaClone a t1 = { areaClone a t2 with id := t1 }) ∧
    (∀ (s : AppState) (t1 t2 : ℤ) (b : TextBox), s.clipboard = some (Clip.text b) →
       (pasteClipboard s t1).clipboard = s.clipboard ∧
       (pasteClipboard (pasteClipboard s t1) t2).textBoxes =
         s.textBoxes ++ [textClone b t1, textClone b t2] ∧
       textClone b t1 = { textClone b t2 with id := t1 }) := by
  refine ⟨?_, ?_, ?_⟩
  · intro s t1 t2 l h
    refine ⟨by simp [pasteClipboard, h], ?_, rfl⟩
    simp [pasteClipboard, h, lineClone]
  · intro s t1 t2 a h
    refine ⟨by simp [pasteClipboard, h], ?_, rfl⟩
    simp [pasteClipboard, h, areaClone]
  · intro s t1 t2 b h
    refine ⟨by simp [pasteClipboard, h], ?_, rfl⟩
    simp [pasteClipboard, h, textClone]

/-- C10 witness: the line conjunct of `c10_theorem` on the concrete
clipboard state `c10State` with timestamps 1000 and 1001. -/
theorem c10_witness :
    (pasteClipboard c10State 1000).clipboard = c10State.clipboard ∧
    (pasteClipboard (pasteClipboard c10State 1000) 1001).lines =
      c10State.lines ++ [lineClone c10Line 1000, lineClone c10Line 1001] ∧
    lineClone c10Line 1000 = { lineClone c10Line 1001 with id := 1000 } :=
  c10_theorem.1 c10State 1000 1001 c10Line rfl

/-- Inverting the guard of the line-drag branch of `handleMouseMove`. -/
theorem lineDragGo_spec {s : AppState} {did : ℤ} {snap : LineSnap}
    (h : lineDragGo s = some (did, snap)) :
    ((s.tool = ToolMode.line ∨ s.tool = ToolMode.select) ∧ s.dragMode ≠ DragMode.none) ∧
    s.dragLineId = some did ∧ s.dragStart = some snap := by
  unfold lineDragGo at h
  split at h
  case isTrue hc =>
    refine ⟨hc, ?_⟩
    rcases hld : s.dragLineId with _ | d
    · rw [hld] at h; simp at h
    · rcases hls : s.dragStart with _ | sn
      · rw [hld, hls] at h; simp at h
      · rw [hld, hls] at h
        simp only [Option.some.injEq, Prod.mk.injEq] at h
        obtain ⟨rfl, rfl⟩ := h
        exact ⟨rfl, rfl⟩
  case isFalse hc => simp at h

/-- Inverting the guard of the area-drag branch of `handleMouseMove`. -/
theorem areaDragGo_spec {s : AppState} {aid : ℤ} {snap : AreaSnap}
    (h : areaDragGo s = some (aid, snap)) :
    ((s.tool = ToolMode.area ∨ s.tool = ToolMode.select) ∧ s.areaDragMode ≠ DragMode.none) ∧
    s.areaDragId = some aid ∧ s.areaDragStart = some snap := by
  unfold areaDragGo at h
  split at h
  case isTrue hc =>
    refine ⟨hc, ?_⟩
    rcases hld : s.areaDragId with _ | d
    · rw [hld] at h; simp at h
    · rcases hls : s.areaDragStart with _ | sn
      · rw [hld, hls] at h; simp at h
      · rw [hld, hls] at h
        simp only [Option.some.injEq, Prod.mk.injEq] at h
        obtain ⟨rfl, rfl⟩ := h
        exact ⟨rfl, rfl⟩
  case isFalse hc => simp at h

/-- Inverting the guard of the text-drag branch of `handleMouseMove`. -/
theorem textDragGo_spec {s : AppState} {tid : ℤ} {snap : TextSnap}
    (h : textDragGo s = some (tid, snap)) :
    ((s.tool = ToolMode.text ∨ s.tool = ToolMode.select) ∧ s.textDragMode ≠ TextDragMode.none) ∧
    s.textDragId = some tid ∧ s.textDragStart = some snap := by
  unfold textDragGo at h
  split at h
  case isTrue hc =>
    refine ⟨hc, ?_⟩
    rcases hld : s.textDragId with _ | d
    · rw [hld] at h; simp at h
    · rcases hls : s.textDragStart with _ | sn
      · rw [hld, hls] at h; simp at h
      · rw [hld, hls] at h
        simp only [Option.some.injEq, Prod.mk.injEq] at h
        obtain ⟨rfl, rfl⟩ := h
        exact ⟨rfl, rfl⟩
  case isFalse hc => simp at h

/-- While the line drag is active every pointer-move reduces to
`lineDragApply` (the snapshot-plus-delta update). -/
theorem handleMouseMove_lineDrag {s : AppState} {did : ℤ} {snap : LineSnap}
    (hca : s.canvasAttached = true) (hcs : s.canvasSize ≠ Option.none)
    (h : lineDragGo s = some (did, snap)) :
    ∀ e, handleMouseMove s e = lineDragApply s e did snap := by
  intro e
  obtain ⟨⟨htool, _⟩, _, _⟩ := lineDragGo_spec h
  have hhand : ¬ s.tool = ToolMode.hand := by
    rcases htool with h1 | h1 <;> rw [h1] <;> intro hh <;> exact ToolMode.noConfusion hh
  unfold handleMouseMove
  rw [if_neg hhand, if_neg (by simp [hca, hcs]), h]

/-- While the area drag is active (and no line drag is) every pointer-move
reduces to `areaDragApply`. -/
theorem handleMouseMove_areaDrag {s : AppState} {aid : ℤ} {snap : AreaSnap}
    (hca : s.canvasAttached = true) (hcs : s.canvasSize ≠ Option.none)
    (hl : lineDragGo s = Option.none) (h : areaDragGo s = some (aid, snap)) :
    ∀ e, handleMouseMove s e = areaDragApply s e aid snap := by
  intro e
  obtain ⟨⟨htool, _⟩, _, _⟩ := areaDragGo_spec h
  have hhand : ¬ s.tool = ToolMode.hand := by
    rcases htool with h1 | h1 <;> rw [h1] <;> intro hh <;> exact ToolMode.noConfusion hh
  unfold handleMouseMove
  rw [if_neg hhand, if_neg (by simp [hca, hcs]), hl, h]

/-- While the text drag is active (and no line or area drag is) every
pointer-move reduces to `textDragApply`. -/
theorem handleMouseMove_textDrag {s : AppState} {tid : ℤ} {snap : TextSnap}
    (hca : s.canvasAttached = true) (hcs : s.canvasSize ≠ Option.none)
    (hl : lineDragGo s = Option.none) (ha : areaDragGo s = Option.none)
    (h : textDragGo s = some (tid, snap)) :
    ∀ e, handleMouseMove s e = textDragApply s e tid snap := by
  intro e
  obtain ⟨⟨htool, _⟩, _, _⟩ := textDragGo_spec h
  have hhand : ¬ s.tool = ToolMode.hand := by
    rcases htool with h1 | h1 <;> rw [h1] <;> intro hh <;> exact ToolMode.noConfusion hh
  unfold handleMouseMove
  rw [if_neg hhand, if_neg (by simp [hca, hcs]), hl, ha, h]

/-- Because each drag step writes geometry computed from the immutable
snapshot, two consecutive drag steps equal the last one alone (lines). -/
theorem lineDragApply_comp (s : AppState) (e1 e2 : MouseEv) (did : ℤ) (snap : LineSnap) :
    lineDragApply (lineDragApply s e1 did snap) e2 did snap = lineDragApply s e2 did snap := by
  unfold lineDragApply
  simp only [List.map_map]
  congr 1
  apply List.map_congr_left
  intro l _
  simp only [Function.comp]
  by_cases hid : l.id = did
  · cases l
    cases hdm : s.dragMode <;> simp_all
  · simp [bne, hid]

/-- Because each drag step writes geometry computed from the immutable
snapshot, two consecutive drag steps equal the last one alone (areas). -/
theorem areaDragApply_comp (s : AppState) (e1 e2 : MouseEv) (aid : ℤ) (snap : AreaSnap) :
    areaDragApply (areaDragApply s e1 aid snap) e2 aid snap = areaDragApply s e2 aid snap := by
  unfold areaDragApply
  simp only [List.map_map]
  congr 1
  apply List.map_congr_left
  intro a _
  simp only [Function.comp]
  by_cases hid : a.id = aid
  · rcases snap with ⟨mx, my, pts⟩
    rcases a with ⟨i, atype, apts, ao, ath, ac, af⟩
    rcases hdm : s.areaDragMode with _ | _ | _ | _ <;>
      by_cases htp : atype = AreaShapeType.freeform <;>
      rcases pts with _ | ⟨p1, _ | ⟨p2, rest⟩⟩ <;>
      simp_all
  · simp [bne, hid]

/-- Because each drag step writes geometry computed from the immutable
snapshot, two consecutive drag steps equal the last one alone (text). -/
theorem textDragApply_comp (s : AppState) (e1 e2 : MouseEv) (tid : ℤ) (snap : TextSnap) :
    textDragApply (textDragApply s e1 tid snap) e2 tid snap = textDragApply s e2 tid snap := by
  unfold textDragApply
  simp only [List.map_map]
  congr 1
  apply List.map_congr_left
  intro b _
  simp only [Function.comp]
  by_cases hid : b.id = tid
  · cases b
    cases hdm : s.textDragMode <;> simp_all
  · simp [bne, hid]

/-- Any line-drag pointer-move sequence collapses to its last event. -/
theorem lineDrag_foldl {did : ℤ} {snap : LineSnap} :
    ∀ (es : List MouseEv) (s : AppState), s.canvasAttached = true →
      s.canvasSize ≠ Option.none → lineDragGo s = some (did, snap) →
      ∀ e, List.foldl handleMouseMove s (es ++ [e]) = lineDragApply s e did snap := by
  intro es
  induction es with
  | nil =>
      intro s hca hcs h e
      simpa using handleMouseMove_lineDrag hca hcs h e
  | cons a as ih =>
      intro s hca hcs h e
      have h1 : handleMouseMove s a = lineDragApply s a did snap :=
        handleMouseMove_lineDrag hca hcs h a
      have hgo : lineDragGo (lineDragApply s a did snap) = some (did, snap) := by
        rw [show lineDragGo (lineDragApply s a did snap) = lineDragGo s from rfl]
        exact h
      have hstep : List.foldl handleMouseMove s ((a :: as) ++ [e])
          = List.foldl handleMouseMove (handleMouseMove s a) (as ++ [e]) := rfl
      rw [hstep, h1, ih (lineDragApply s a did snap) hca hcs hgo e, lineDragApply_comp]

/-- Any area-drag pointer-move sequence collapses to its last event. -/
theorem areaDrag_foldl {aid : ℤ} {snap : AreaSnap} :
    ∀ (es : List MouseEv) (s : AppState), s.canvasAttached = true →
      s.canvasSize ≠ Option.none → lineDragGo s = Option.none →
      areaDragGo s = some (aid, snap) →
      ∀ e, List.foldl handleMouseMove s (es ++ [e]) = areaDragApply s e aid snap := by
  intro es
  induction es with
  | nil =>
      intro s hca hcs hl h e
      simpa using handleMouseMove_areaDrag hca hcs hl h e
  | cons a as ih =>
      intro s hca hcs hl h e
      have h1 : handleMouseMove s a = areaDragApply s a aid snap :=
        handleMouseMove_areaDrag hca hcs hl h a
      have hlgo : lineDragGo (areaDragApply s a aid snap) = Option.none := by
        rw [show lineDragGo (areaDragApply s a aid snap) = lineDragGo s from rfl]
        exact hl
      have hgo : areaDragGo (areaDragApply s a aid snap) = some (aid, snap) := by
        rw [show areaDragGo (areaDragApply s a aid snap) = areaDragGo s from rfl]
        exact h
      have hstep : List.foldl handleMouseMove s ((a :: as) ++ [e])
          = List.foldl handleMouseMove (handleMouseMove s a) (as ++ [e]) := rfl
      rw [hstep, h1, ih (areaDragApply s a aid snap) hca hcs hlgo hgo e, areaDragApply_comp]

/-- Any text-drag pointer-move sequence collapses to its last event. -/
theorem textDrag_foldl {tid : ℤ} {snap : TextSnap} :
    ∀ (es : List MouseEv) (s : AppState), s.canvasAttached = true →
      s.canvasSize ≠ Option.none → lineDragGo s = Option.none →
      areaDragGo s = Option.none → textDragGo s = some (tid, snap) →
      ∀ e, List.foldl handleMouseMove s (es ++ [e]) = textDragApply s e tid snap := by
  intro es
  induction es with
  | nil =>
      intro s hca hcs hl ha h e
      simpa using handleMouseMove_textDrag hca hcs hl ha h e
  | cons a as ih =>
      intro s hca hcs hl ha h e
      have h1 : handleMouseMove s a = textDragApply s a tid snap :=
        handleMouseMove_textDrag hca hcs hl ha h a
      have hlgo : lineDragGo (textDragApply s a tid snap) = Option.none := by
        rw [show lineDragGo (textDragApply s a tid snap) = lineDragGo s from rfl]
        exact hl
      have hago : areaDragGo (textDragApply s a tid snap) = Option.none := by
        rw [show areaDragGo (textDragApply s a tid snap) = areaDragGo s from rfl]
        exact ha
      have hgo : textDragGo (textDragApply s a tid snap) = some (tid, snap) := by
        rw [show textDragGo (textDragApply s a tid snap) = textDragGo s from rfl]
        exact h
      have hstep : List.foldl handleMouseMove s ((a :: as) ++ [e])
          = List.foldl handleMouseMove (handleMouseMove s a) (as ++ [e]) := rfl
      rw [hstep, h1, ih (textDragApply s a tid snap) hca hcs hlgo hago hgo e,
          textDragApply_comp]

/-- C5: while a drag is active, every pointer-move writes geometry equal to
the drag-start snapshot plus the net pointer delta (current minus start
client position, divided by the current rectangle's width/height) — shown
by the reduction to the `…DragApply` functions and, explicitly, by the
formula for a line move drag — and a multi-step drag is equivalent to a
single drag of the net delta: folding the handler over any event sequence
equals handling the last event alone. -/
theorem c5_theorem :
    (∀ (s : AppState) (did : ℤ) (snap : LineSnap),
       s.canvasAttached = true → s.canvasSize ≠ Option.none →
       lineDragGo s = some (did, snap) →
       (∀ e, handleMouseMove s e = lineDragApply s e did snap) ∧
       (∀ e, s.dragMode = DragMode.move →
          (handleMouseMove s e).lines = s.lines.map (fun l =>
            if l.id != did then l
            else { l with
                     x1 := snap.x1 + (e.clientX - snap.mouseX) / e.rectWidth,
                     y1 := snap.y1 + (e.clientY - snap.mouseY) / e.rectHeight,
                     x2 := snap.x2 + (e.clientX - snap.mouseX) / e.rectWidth,
                     y2 := snap.y2 + (e.clientY - snap.mouseY) / e.rectHeight })) ∧
       (∀ (es : List MouseEv) (e : MouseEv),
          List.foldl handleMouseMove s (es ++ [e]) = handleMouseMove s e)) ∧
    (∀ (s : AppState) (aid : ℤ) (snap : AreaSnap),
       s.canvasAttached = true → s.canvasSize ≠ Option.none →
       lineDragGo s = Option.none → areaDragGo s = some (aid, snap) →
       (∀ e, handleMouseMove s e = areaDragApply s e aid snap) ∧
       (∀ (es : List MouseEv) (e : MouseEv),
          List.foldl handleMouseMove s (es ++ [e]) = handleMouseMove s e)) ∧
    (∀ (s : AppState) (tid : ℤ) (snap : TextSnap),
       s.canvasAttached = true → s.canvasSize ≠ Option.none →
       lineDragGo s = Option.none → areaDragGo s = Option.none →
       textDragGo s = some (tid, snap) →
       (∀ e, handleMouseMove s e = textDragApply s e tid snap) ∧
       (∀ (es : List MouseEv) (e : MouseEv),
          List.foldl handleMouseMove s (es ++ [e]) = handleMouseMove s e)) := by
  refine ⟨?_, ?_, ?_⟩
  · intro s did snap hca hcs h
    refine ⟨handleMouseMove_lineDrag hca hcs h, ?_, ?_⟩
    · intro e hdm
      rw [handleMouseMove_lineDrag hca hcs h e]
      unfold lineDragApply
      simp only [hdm]
    · intro es e
      rw [lineDrag_foldl es s hca hcs h e, handleMouseMove_lineDrag hca hcs h e]
  · intro s aid snap hca hcs hl h
    refine ⟨handleMouseMove_areaDrag hca hcs hl h, ?_⟩
    intro es e
    rw [areaDrag_foldl es s hca hcs hl h e, handleMouseMove_areaDrag hca hcs hl h e]
  · intro s tid snap hca hcs hl ha h
    refine ⟨handleMouseMove_textDrag hca hcs hl ha h, ?_⟩
    intro es e
    rw [textDrag_foldl es s hca hcs hl ha h e, handleMouseMove_textDrag hca hcs hl ha h e]

/-- C5 witness: the line conjunct of `c5_theorem` on the concrete armed
drag `c5State`: a two-event drag equals handling the last event alone. -/
theorem c5_witness :
    List.foldl handleMouseMove c5State ([c5Ev1] ++ [c5Ev2])
      = handleMouseMove c5State c5Ev2 :=
  (c5_theorem.1 c5State 1 c5Snap rfl (by simp [c5State, initialState]) rfl).2.2 [c5Ev1] c5Ev2

/-- C6 (amended): the `[0,1]` bound holds where the source clamps — entity
creation from a pointer inside the canvas (and, for the implicit text-box
size, a canvas at least as large as the 200×60-pixel default), and the
drawing pointer-moves, which clamp the pointer into the unit square — but
not under move/resize drags, which add unclamped deltas
(`c6_counterexample`). -/
theorem c6_amended :
    (∀ (s : AppState) (e : MouseEv) (now : ℤ),
       s.tool = ToolMode.line → s.canvasAttached = true → s.pdfLoaded = true →
       s.canvasSize ≠ Option.none → s.dragMode = DragMode.none →
       0 ≤ e.clientX - e.rectLeft → e.clientX - e.rectLeft ≤ e.rectWidth →
       0 ≤ e.clientY - e.rectTop → e.clientY - e.rectTop ≤ e.rectHeight →
       0 < e.rectWidth → 0 < e.rectHeight →
       (handleMouseDown s e now).lines = s.lines ++
         [{ id := now, x1 := (e.clientX - e.rectLeft) / e.rectWidth,
            y1 := (e.clientY - e.rectTop) / e.rectHeight,
            x2 := (e.clientX - e.rectLeft) / e.rectWidth,
            y2 := (e.clientY - e.rectTop) / e.rectHeight,
            style := s.lineStyle, thickness := s.lineWidth,
            arrowEnd := s.arrowEnd, color := s.lineColor }] ∧
       0 ≤ (e.clientX - e.rectLeft) / e.rectWidth ∧
       (e.clientX - e.rectLeft) / e.rectWidth ≤ 1 ∧
       0 ≤ (e.clientY - e.rectTop) / e.rectHeight ∧
       (e.clientY - e.rectTop) / e.rectHeight ≤ 1) ∧
    (∀ (s : AppState) (e : MouseEv) (now : ℤ),
       s.tool = ToolMode.area → s.canvasAttached = true → s.pdfLoaded = true →
       s.canvasSize ≠ Option.none → s.areaDragMode = DragMode.none →
       0 ≤ e.clientX - e.rectLeft → e.clientX - e.rectLeft ≤ e.rectWidth →
       0 ≤ e.clientY - e.rectTop → e.clientY - e.rectTop ≤ e.rectHeight →
       0 < e.rectWidth → 0 < e.rectHeight →
       (handleMouseDown s e now).areas = s.areas ++
         [{ id := now, type := s.areaShapeType,
            points :=
              if s.areaShapeType ≠ AreaShapeType.freeform then
                [⟨(e.clientX - e.rectLeft) / e.rectWidth, (e.clientY - e.rectTop) / e.rectHeight⟩,
                 ⟨(e.clientX - e.rectLeft) / e.rectWidth, (e.clientY - e.rectTop) / e.rectHeight⟩]
              else
                [⟨(e.clientX - e.rectLeft) / e.rectWidth, (e.clientY - e.rectTop) / e.rectHeight⟩],
            outlineStyle := s.areaOutlineStyle, thickness := s.areaThickness,
            color := s.lineColor, fillOpacity := s.areaFillOpacity }] ∧
       0 ≤ (e.clientX - e.rectLeft) / e.rectWidth ∧
       (e.clientX - e.rectLeft) / e.rectWidth ≤ 1 ∧
       0 ≤ (e.clientY - e.rectTop) / e.rectHeight ∧
       (e.clientY - e.rectTop) / e.rectHeight ≤ 1) ∧
    (∀ (s : AppState) (e : MouseEv) (now : ℤ),
       s.tool = ToolMode.text → s.canvasAttached = true → s.pdfLoaded = true →
       s.canvasSize ≠ Option.none →
       0 ≤ e.clientX - e.rectLeft → e.clientX - e.rectLeft ≤ e.rectWidth →
       0 ≤ e.clientY - e.rectTop → e.clientY - e.rectTop ≤ e.rectHeight →
       0 < e.rectWidth → 0 < e.rectHeight →
       (handleMouseDown s e now).textBoxes = s.textBoxes ++
         [{ id := now, x := (e.clientX - e.rectLeft) / e.rectWidth,
            y := (e.clientY - e.rectTop) / e.rectHeight,
            width := 200 / e.rectWidth, height := 60 / e.rectHeight,
            text := "", textColor := s.textColor, fontSize := s.textSize,
            fontFamily := s.textFont, bold := s.textBold, italic := s.textItalic,
            underline := s.textUnderline, backgroundColor := s.textBgColor,
            solidBackground := s.textBgSolid }] ∧
       0 ≤ (e.clientX - e.rectLeft) / e.rectWidth ∧
       (e.clientX - e.rectLeft) / e.rectWidth ≤ 1 ∧
       0 ≤ (e.clientY - e.rectTop) / e.rectHeight ∧
       (e.clientY - e.rectTop) / e.rectHeight ≤ 1 ∧
       0 < 200 / e.rectWidth ∧ (200 ≤ e.rectWidth → 200 / e.rectWidth ≤ 1) ∧
       0 < 60 / e.rectHeight ∧ (60 ≤ e.rectHeight → 60 / e.rectHeight ≤ 1)) ∧
    (∀ (s : AppState) (e : MouseEv) (cid : ℤ),
       s.tool = ToolMode.line → s.canvasAttached = true →
       s.canvasSize ≠ Option.none → s.dragMode = DragMode.none →
       s.isDrawingLine = true → s.currentLineId = some cid →
       (handleMouseMove s e).lines = s.lines.map (fun l =>
         if l.id == cid then
           { l with x2 := min 1 (max 0 ((e.clientX - e.rectLeft) / e.rectWidth)),
                    y2 := min 1 (max 0 ((e.clientY - e.rectTop) / e.rectHeight)) }
         else l) ∧
       0 ≤ min 1 (max 0 ((e.clientX - e.rectLeft) / e.rectWidth)) ∧
       min 1 (max 0 ((e.clientX - e.rectLeft) / e.rectWidth)) ≤ 1 ∧
       0 ≤ min 1 (max 0 ((e.clientY - e.rectTop) / e.rectHeight)) ∧
       min 1 (max 0 ((e.clientY - e.rectTop) / e.rectHeight)) ≤ 1) ∧
    (∀ (s : AppState) (e : MouseEv) (cid : ℤ),
       s.tool = ToolMode.area → s.canvasAttached = true →
       s.canvasSize ≠ Option.none → s.areaDragMode = DragMode.none →
       s.isDrawingArea = true → s.currentAreaId = some cid →
       (handleMouseMove s e).areas = s.areas.map (fun a =>
         if a.id != cid then a
         else if a.type = AreaShapeType.freeform then
           { a with points := a.points ++
               [⟨min 1 (max 0 ((e.clientX - e.rectLeft) / e.rectWidth)),
                 min 1 (max 0 ((e.clientY - e.rectTop) / e.rectHeight))⟩] }
         else match a.points with
           | p0 :: _ =>
               { a with points :=
                   [p0, ⟨min 1 (max 0 ((e.clientX - e.rectLeft) / e.rectWidth)),
                         min 1 (max 0 ((e.clientY - e.rectTop) / e.rectHeight))⟩] }
           | [] => a) ∧
       0 ≤ min 1 (max 0 ((e.clientX - e.rectLeft) / e.rectWidth)) ∧
       min 1 (max 0 ((e.clientX - e.rectLeft) / e.rectWidth)) ≤ 1 ∧
       0 ≤ min 1 (max 0 ((e.clientY - e.rectTop) / e.rectHeight)) ∧
       min 1 (max 0 ((e.clientY - e.rectTop) / e.rectHeight)) ≤ 1) := by
  refine ⟨?_, ?_, ?_, ?_, ?_⟩
  · intro s e now ht hca hpdf hcs hdm hx0 hx1 hy0 hy1 hw hh
    refine ⟨?_, div_nonneg hx0 hw.le, (div_le_one hw).mpr hx1,
            div_nonneg hy0 hh.le, (div_le_one hh).mpr hy1⟩
    simp +decide [handleMouseDown, ht, hca, hpdf, hcs, hdm,
      not_lt.mpr hx0, not_lt.mpr hx1, not_lt.mpr hy0, not_lt.mpr hy1]
  · intro s e now ht hca hpdf hcs hadm hx0 hx1 hy0 hy1 hw hh
    refine ⟨?_, div_nonneg hx0 hw.le, (div_le_one hw).mpr hx1,
            div_nonneg hy0 hh.le, (div_le_one hh).mpr hy1⟩
    simp +decide [handleMouseDown, ht, hca, hpdf, hcs, hadm,
      not_lt.mpr hx0, not_lt.mpr hx1, not_lt.mpr hy0, not_lt.mpr hy1]
  · intro s e now ht hca hpdf hcs hx0 hx1 hy0 hy1 hw hh
    refine ⟨?_, div_nonneg hx0 hw.le, (div_le_one hw).mpr hx1,
            div_nonneg hy0 hh.le, (div_le_one hh).mpr hy1,
            div_pos (by norm_num) hw, fun h => (div_le_one hw).mpr h,
            div_pos (by norm_num) hh, fun h => (div_le_one hh).mpr h⟩
    simp +decide [handleMouseDown, ht, hca, hpdf, hcs,
      not_lt.mpr hx0, not_lt.mpr hx1, not_lt.mpr hy0, not_lt.mpr hy1]
  · intro s e cid ht hca hcs hdm hidr hcid
    refine ⟨?_, le_min (by norm_num) (le_max_left 0 _), min_le_left 1 _,
            le_min (by norm_num) (le_max_left 0 _), min_le_left 1 _⟩
    have hl : lineDragGo s = Option.none := by
      unfold lineDragGo
      exact if_neg (by simp [hdm])
    have ha : areaDragGo s = Option.none := by
      unfold areaDragGo
      exact if_neg (by simp +decide [ht])
    have htx : textDragGo s = Option.none := by
      unfold textDragGo
      exact if_neg (by simp +decide [ht])
    simp +decide [handleMouseMove, hl, ha, htx, ht, hca, hcs, hidr, hcid]
  · intro s e cid ht hca hcs hadm hida hcida
    refine ⟨?_, le_min (by norm_num) (le_max_left 0 _), min_le_left 1 _,
            le_min (by norm_num) (le_max_left 0 _), min_le_left 1 _⟩
    have hl : lineDragGo s = Option.none := by
      unfold lineDragGo
      exact if_neg (by simp +decide [ht])
    have ha : areaDragGo s = Option.none := by
      unfold areaDragGo
      exact if_neg (by simp [hadm])
    have htx : textDragGo s = Option.none := by
      unfold textDragGo
      exact if_neg (by simp +decide [ht])
    simp +decide [handleMouseMove, hl, ha, htx, ht, hca, hcs, hida, hcida]

/-- C6 witness: the line-creation conjunct of `c6_amended` on the concrete
state `c6StateB`. -/
theorem c6_witness :
    (handleMouseDown c6StateB c6EvB 1000).lines = c6StateB.lines ++
      [{ id := 1000,
         x1 := (c6EvB.clientX - c6EvB.rectLeft) / c6EvB.rectWidth,
         y1 := (c6EvB.clientY - c6EvB.rectTop) / c6EvB.rectHeight,
         x2 := (c6EvB.clientX - c6EvB.rectLeft) / c6EvB.rectWidth,
         y2 := (c6EvB.clientY - c6EvB.rectTop) / c6EvB.rectHeight,
         style := c6StateB.lineStyle, thickness := c6StateB.lineWidth,
         arrowEnd := c6StateB.arrowEnd, color := c6StateB.lineColor }] ∧
    0 ≤ (c6EvB.clientX - c6EvB.rectLeft) / c6EvB.rectWidth ∧
    (c6EvB.clientX - c6EvB.rectLeft) / c6EvB.rectWidth ≤ 1 ∧
    0 ≤ (c6EvB.clientY - c6EvB.rectTop) / c6EvB.rectHeight ∧
    (c6EvB.clientY - c6EvB.rectTop) / c6EvB.rectHeight ≤ 1 :=
  c6_amended.1 c6StateB c6EvB 1000 rfl rfl rfl (by simp [c6StateB, initialState]) rfl
    (by norm_num [c6EvB]) (by norm_num [c6EvB]) (by norm_num [c6EvB]) (by norm_num [c6EvB])
    (by norm_num [c6EvB]) (by norm_num [c6EvB])

/-- C8: the wavy-path generator subdivides the segment into
`max(2, round(length/wavelength))` equal steps (the path has exactly that
many quadratic segments, and consecutive step endpoints differ by the
constant step `d/segments`), the perpendicular control-point offset at
step `i` is `sign(i) * amplitude` with `sign(i) = (-1)^(i+1)` (positive at
odd steps, negative at even), a zero-length segment uses length 1, and the
path from (0,0) to (120,0) with wavelength 12 has exactly 10 segments with
the first intermediate offset positive (control point (12,4)). -/
theorem c8_theorem :
    (∀ x1 y1 x2 y2 a w : ℝ,
       (makeWavyPath x1 y1 x2 y2 a w).length
         = max 2 (round (wavyLength x1 y1 x2 y2 / w)).toNat) ∧
    (∀ i : ℕ, wavySign i = (-1 : ℝ) ^ (i + 1)) ∧
    (∀ x1 y1 x2 y2 a w : ℝ, ∀ i : ℕ,
       (wavySeg x1 y1 x2 y2 a w (i + 1)).px - (wavySeg x1 y1 x2 y2 a w i).px
         = (x2 - x1) / (wavySegs x1 y1 x2 y2 w : ℝ) ∧
       (wavySeg x1 y1 x2 y2 a w (i + 1)).py - (wavySeg x1 y1 x2 y2 a w i).py
         = (y2 - y1) / (wavySegs x1 y1 x2 y2 w : ℝ)) ∧
    (∀ x1 y1 x2 y2 a w : ℝ, ∀ i : ℕ,
       (wavySeg x1 y1 x2 y2 a w i).cx - (wavySeg x1 y1 x2 y2 a w i).px
         = -(y2 - y1) / wavyLength x1 y1 x2 y2 * (wavySign i * a) ∧
       (wavySeg x1 y1 x2 y2 a w i).cy - (wavySeg x1 y1 x2 y2 a w i).py
         = (x2 - x1) / wavyLength x1 y1 x2 y2 * (wavySign i * a)) ∧
    (∀ x y : ℝ, wavyLength x y x y = 1) ∧
    ((makeWavyPath 0 0 120 0 4 12).length = 10 ∧
     (makeWavyPath 0 0 120 0 4 12).head? = some ⟨12, 4, 12, 0⟩) := by
  have hlen : wavyLength 0 0 120 0 = 120 := by
    unfold wavyLength hypot
    norm_num
    rw [show (14400 : ℝ) = 120 ^ 2 from by norm_num,
        Real.sqrt_sq (by norm_num : (0:ℝ) ≤ 120)]
  have hsegs : wavySegs 0 0 120 0 12 = 10 := by
    unfold wavySegs
    rw [hlen, show (120 : ℝ) / 12 = ((10 : ℤ) : ℝ) from by norm_num, round_intCast]
    rfl
  refine ⟨?_, ?_, ?_, ?_, ?_, ?_, ?_⟩
  · intro x1 y1 x2 y2 a w
    simp [makeWavyPath, wavySegs]
  · intro i
    unfold wavySign
    rcases Nat.even_or_odd i with he | ho
    · rw [if_pos (Nat.even_iff.mp he), pow_succ, he.neg_one_pow]
      norm_num
    · rw [if_neg (by simp [Nat.odd_iff.mp ho]), pow_succ, ho.neg_one_pow]
      norm_num
  · intro x1 y1 x2 y2 a w i
    unfold wavySeg
    constructor <;> push_cast <;> ring
  · intro x1 y1 x2 y2 a w i
    unfold wavySeg
    constructor <;> ring
  · intro x y
    unfold wavyLength hypot
    simp
  · rw [show (makeWavyPath 0 0 120 0 4 12).length
        = max 2 (round (wavyLength 0 0 120 0 / 12)).toNat from by
          simp [makeWavyPath, wavySegs],
        hlen, show (120 : ℝ) / 12 = ((10 : ℤ) : ℝ) from by norm_num, round_intCast]
    rfl
  · unfold makeWavyPath
    rw [hsegs, show List.range 10 = [0, 1, 2, 3, 4, 5, 6, 7, 8, 9] from by decide]
    simp only [List.map_cons, List.head?_cons]
    unfold wavySeg wavySign
    rw [hlen, hsegs]
    norm_num

/-- C9: the rendered rectangle geometry `(min x, min y, |dx|, |dy|)` and
circle geometry (midpoint center, radius half the Euclidean distance) are
invariant under swapping the two defining points; from the points
(0.2,0.2) and (0.6,0.5) the rectangle is x=0.2, y=0.2, w=0.4, h=0.3 and
the circle has center (0.4,0.35) and radius 0.25. -/
theorem c9_theorem :
    (∀ x1 y1 x2 y2 : ℝ, rectRender x1 y1 x2 y2 = rectRender x2 y2 x1 y1) ∧
    (∀ x1 y1 x2 y2 : ℝ, circleRender x1 y1 x2 y2 = circleRender x2 y2 x1 y1) ∧
    rectRender 0.2 0.2 0.6 0.5 = ⟨0.2, 0.2, 0.4, 0.3⟩ ∧
    circleRender 0.2 0.2 0.6 0.5 = ⟨0.4, 0.35, 0.25⟩ := by
  refine ⟨?_, ?_, ?_, ?_⟩
  · intro x1 y1 x2 y2
    unfold rectRender
    rw [min_comm x1 x2, min_comm y1 y2, abs_sub_comm x2 x1, abs_sub_comm y2 y1]
  · intro x1 y1 x2 y2
    unfold circleRender hypot
    congr 1
    · ring
    · ring
    · rw [show (x1 - x2) ^ 2 + (y1 - y2) ^ 2 = (x2 - x1) ^ 2 + (y2 - y1) ^ 2 from by ring]
  · unfold rectRender
    rw [min_eq_left (by norm_num : (0.2 : ℝ) ≤ 0.6),
        min_eq_left (by norm_num : (0.2 : ℝ) ≤ 0.5),
        abs_of_nonneg (by norm_num : (0 : ℝ) ≤ 0.6 - 0.2),
        abs_of_nonneg (by norm_num : (0 : ℝ) ≤ 0.5 - 0.2)]
    norm_num
  · unfold circleRender hypot
    rw [show ((0.6 : ℝ) - 0.2) ^ 2 + ((0.5 : ℝ) - 0.2) ^ 2 = (0.5 : ℝ) ^ 2 from by norm_num,
        Real.sqrt_sq (by norm_num : (0:ℝ) ≤ 0.5)]
    norm_num

end TraceMark
